import Mathlib

/-
Shallow embedding of the per-connection streaming Session Controller of the
mindbloom-websocket server (the hardened variant: credentials validation,
the isStreamEnded flag, the "write after end" filter, and try/catch around
every stream operation).

The Session Controller is a small state machine driven by transport events
(startStream, binaryData, endStream, disconnect) and by upstream gateway
events (data, error, end).  The embedding keeps the two mutable per-connection
variables of the source (recognizeStream, isStreamEnded) and adds ghost
instrumentation that records externally observable actions: which upstream
streams were opened, which received a close request (end() was invoked),
which reported an upstream end or error event, the exact sequence of write()
invocations with their byte payloads, and the outbound events emitted to the
client socket.

Environment nondeterminism (streamingRecognize throwing, write() throwing,
end() throwing) is passed in as explicit Boolean parameters: the source wraps
each of these calls in try/catch, so both outcomes are reachable code paths.
-/

/-- Outbound events emitted on the client socket: socket.emit("transcription", t)
and socket.emit("error", msg). -/
inductive ClientEvent where
  | transcription (text : String)
  | error (msg : String)
deriving DecidableEq, Repr

/-- Startup configuration: hasValidCredentials (result of
validateGoogleCredentials) and whether the speechClient handle was created
(the source creates it exactly when credentials are valid, but the guard in
the startStream handler tests both, so both are modelled). -/
structure Cfg where
  hasValidCredentials : Bool
  speechClient : Bool
deriving DecidableEq, Repr

/-- validateGoogleCredentials: false when GOOGLE_APPLICATION_CREDENTIALS is
unset, false when JSON.parse of it throws, true otherwise.  The JSON parser
is external; its outcome is the parseOk oracle. -/
def validateGoogleCredentials (credentials : Option String)
    (parseOk : String → Bool) : Bool :=
  match credentials with
  | none => false
  | some c => parseOk c

/-- speechClient is constructed exactly when hasValidCredentials holds. -/
def mkCfg (hasValidCredentials : Bool) : Cfg :=
  { hasValidCredentials := hasValidCredentials, speechClient := hasValidCredentials }

/-- Per-connection Session state.  recognizeStream holds the id of the
currently referenced upstream stream (null in the source is none here);
isStreamEnded is the source flag of the same name.  The remaining fields are
ghost logs of observable actions, never read by the handlers themselves
(except nextStreamId, which supplies fresh stream ids). -/
structure Session where
  recognizeStream : Option Nat := none
  isStreamEnded : Bool := false
  nextStreamId : Nat := 0
  openedStreams : List Nat := []
  closeRequested : List Nat := []
  endedStreams : List Nat := []
  erroredStreams : List Nat := []
  writes : List (Nat × List Nat) := []
  emitted : List ClientEvent := []
deriving DecidableEq, Repr

/-- Session state at connection time: let recognizeStream = null;
let isStreamEnded = false. -/
def initialSession : Session := {}

/-- startStream handler.  Guard: if (!hasValidCredentials or !speechClient)
emit "error" and return.  Otherwise isStreamEnded = false, then
speechClient.streamingRecognize(...) is called inside try; on success the
fresh stream is installed, on a synchronous throw (startOk = false) the catch
logs and emits "Failed to start stream", leaving recognizeStream at its
previous value. -/
def onStart (cfg : Cfg) (startOk : Bool) (s : Session) : Session :=
  if !(cfg.hasValidCredentials && cfg.speechClient) then
    { s with emitted :=
        s.emitted ++ [ClientEvent.error "Speech-to-Text service is not configured"] }
  else
    let s1 := { s with isStreamEnded := false }
    if startOk then
      { s1 with recognizeStream := some s1.nextStreamId,
                openedStreams := s1.openedStreams ++ [s1.nextStreamId],
                nextStreamId := s1.nextStreamId + 1 }
    else
      { s1 with emitted := s1.emitted ++ [ClientEvent.error "Failed to start stream"] }

/-- binaryData handler.  if (recognizeStream and !isStreamEnded) then
try recognizeStream.write(data) — the write call is recorded in the writes
log — and when the write throws (writeOk = false) the catch logs and emits
"Failed to process audio data". -/
def onAudioChunk (data : List Nat) (writeOk : Bool) (s : Session) : Session :=
  match s.recognizeStream with
  | some i =>
      if s.isStreamEnded then s
      else
        let s1 := { s with writes := s.writes ++ [(i, data)] }
        if writeOk then s1
        else { s1 with emitted :=
                 s1.emitted ++ [ClientEvent.error "Failed to process audio data"] }
  | none => s

/-- endStream handler.  if (recognizeStream and !isStreamEnded) then inside
try: isStreamEnded = true; recognizeStream.end() — recorded in closeRequested
— then recognizeStream = null.  When end() throws (endOk = false) the catch
only logs, so the null assignment is not reached. -/
def onStop (endOk : Bool) (s : Session) : Session :=
  match s.recognizeStream with
  | some i =>
      if s.isStreamEnded then s
      else
        let s1 := { s with isStreamEnded := true,
                           closeRequested := s.closeRequested ++ [i] }
        if endOk then { s1 with recognizeStream := none } else s1
  | none => s

/-- disconnect handler: identical body to the endStream handler (only the
log line differs). -/
def onDisconnect (endOk : Bool) (s : Session) : Session :=
  match s.recognizeStream with
  | some i =>
      if s.isStreamEnded then s
      else
        let s1 := { s with isStreamEnded := true,
                           closeRequested := s.closeRequested ++ [i] }
        if endOk then { s1 with recognizeStream := none } else s1
  | none => s

/-- Upstream stream error handler for stream i:
if (error.message !== "write after end") then log and emit
"Speech recognition error: " ++ message; the benign race message is swallowed.
The session variables are not touched. -/
def onUpstreamError (i : Nat) (msg : String) (s : Session) : Session :=
  let s1 := { s with erroredStreams := s.erroredStreams ++ [i] }
  if msg ≠ "write after end" then
    { s1 with emitted :=
        s1.emitted ++ [ClientEvent.error ("Speech recognition error: " ++ msg)] }
  else s1

/-- Upstream stream end handler for stream i: isStreamEnded = true;
recognizeStream = null. -/
def onUpstreamEnd (i : Nat) (s : Session) : Session :=
  { s with isStreamEnded := true, recognizeStream := none,
           endedStreams := s.endedStreams ++ [i] }

/-- One recognition alternative, with its transcript text. -/
structure SpeechAlternative where
  transcript : String
deriving DecidableEq, Repr

/-- One recognition result: a list of alternatives. -/
structure SpeechResult where
  alternatives : List SpeechAlternative
deriving DecidableEq, Repr

/-- Payload of an upstream data event: data.results is an array of results. -/
structure RecognitionData where
  results : List SpeechResult
deriving DecidableEq, Repr

/-- Upstream data handler body: const result = data.results[0];
if (result and result.alternatives[0]) emit the transcript.  Indexing past
the end of a JS array yields undefined (head? = none); a property access on
undefined would throw, which the Option result models as none.  Every access
here is guarded, so every branch returns some. -/
def dataEvents (d : RecognitionData) : Option (List ClientEvent) :=
  match d.results.head? with
  | some result =>
      match result.alternatives.head? with
      | some alt => some [ClientEvent.transcription alt.transcript]
      | none => some []
  | none => some []

/-- Upstream data handler applied to the session: appends the emitted events;
none would mean an exception escaped the handler. -/
def onUpstreamData (d : RecognitionData) (s : Session) : Option Session :=
  (dataEvents d).map (fun evts => { s with emitted := s.emitted ++ evts })

/-- A transport-layer or upstream event delivered to one connection. -/
inductive SEvent where
  | start (startOk : Bool)
  | audio (data : List Nat) (writeOk : Bool)
  | stop (endOk : Bool)
  | disconnect (endOk : Bool)
  | upstreamData (d : RecognitionData)
  | upstreamError (i : Nat) (msg : String)
  | upstreamEnd (i : Nat)
deriving DecidableEq, Repr

/-- Dispatch one event to its handler.  The Option result marks the event
handler boundary: none would be an uncaught exception escaping a handler. -/
def handleE (cfg : Cfg) (s : Session) (ev : SEvent) : Option Session :=
  match ev with
  | SEvent.start ok => some (onStart cfg ok s)
  | SEvent.audio d w => some (onAudioChunk d w s)
  | SEvent.stop e => some (onStop e s)
  | SEvent.disconnect e => some (onDisconnect e s)
  | SEvent.upstreamData d => onUpstreamData d s
  | SEvent.upstreamError i m => some (onUpstreamError i m s)
  | SEvent.upstreamEnd i => some (onUpstreamEnd i s)

/-- Total dispatch (handleE never returns none; see the safety theorem). -/
def handleT (cfg : Cfg) (s : Session) (ev : SEvent) : Session :=
  (handleE cfg s ev).getD s

/-- Run a sequence of events from a state. -/
def runTrace (cfg : Cfg) (s : Session) (evs : List SEvent) : Session :=
  evs.foldl (handleT cfg) s

/-- Run a sequence of binaryData events (payload, writeOk) from a state. -/
def runAudio (s : Session) (chunks : List (List Nat × Bool)) : Session :=
  chunks.foldl (fun t cb => onAudioChunk cb.1 cb.2 t) s

/-- The whole server: one independent Session per connection. -/
def stepWorld (cfg : Cfg) (w : List Session) (c : Nat) (ev : SEvent) : List Session :=
  match w.get? c with
  | some s => w.set c (handleT cfg s ev)
  | none => w

/-- A configuration with valid credentials and a constructed client. -/
def cfgValid : Cfg := mkCfg true

/-- Stream i is open for session s: it was opened and has neither received a
close request nor reported its upstream end event. -/
def openB (s : Session) (i : Nat) : Bool :=
  decide (i ∈ s.openedStreams) && !decide (i ∈ s.closeRequested)
    && !decide (i ∈ s.endedStreams)

/-- Number of open streams of a session. -/
def openCount (s : Session) : Nat :=
  (s.openedStreams.filter (fun i => openB s i)).length

/-- Stream i is live for session s: open, and it has not reported an upstream
error either (the spec calls a stream that errored a dead stream). -/
def liveB (s : Session) (i : Nat) : Bool :=
  openB s i && !decide (i ∈ s.erroredStreams)

/-- The post-onStart guarantee claimed by the spec, as a checkable predicate:
either a live stream is installed and isStreamEnded is false, or no stream
is installed. -/
def liveOrNone (s : Session) : Bool :=
  match s.recognizeStream with
  | some i => liveB s i && !s.isStreamEnded
  | none => true

/-- Ghost ids recorded so far are all below the fresh-id counter; holds at
connection time and is preserved by every handler. -/
def Wf (s : Session) : Prop :=
  (∀ j ∈ s.openedStreams, j < s.nextStreamId) ∧
  (∀ j ∈ s.closeRequested, j < s.nextStreamId) ∧
  (∀ j ∈ s.endedStreams, j < s.nextStreamId) ∧
  (∀ j ∈ s.erroredStreams, j < s.nextStreamId)

/-
Helper lemmas shared by the claim theorems.
-/

theorem runAudio_cons (s : Session) (cb : List Nat × Bool) (rest : List (List Nat × Bool)) :
    runAudio s (cb :: rest) = runAudio (onAudioChunk cb.1 cb.2 s) rest := rfl

theorem onAudioChunk_no_stream (b : List Nat) (w : Bool) (s : Session)
    (h : s.recognizeStream = none) : onAudioChunk b w s = s := by
  simp [onAudioChunk, h]

theorem runAudio_no_stream (chunks : List (List Nat × Bool)) :
    ∀ s : Session, s.recognizeStream = none → runAudio s chunks = s := by
  induction chunks with
  | nil => intro s h; rfl
  | cons cb rest ih =>
      intro s h
      rw [runAudio_cons, onAudioChunk_no_stream cb.1 cb.2 s h]
      exact ih s h

theorem onAudioChunk_streaming (b : List Nat) (w : Bool) (s : Session) (i : Nat)
    (h1 : s.recognizeStream = some i) (h2 : s.isStreamEnded = false) :
    (onAudioChunk b w s).recognizeStream = some i ∧
    (onAudioChunk b w s).isStreamEnded = false ∧
    (onAudioChunk b w s).writes = s.writes ++ [(i, b)] := by
  cases w <;> simp [onAudioChunk, h1, h2]

theorem runAudio_streaming (chunks : List (List Nat × Bool)) :
    ∀ (s : Session) (i : Nat), s.recognizeStream = some i → s.isStreamEnded = false →
    (runAudio s chunks).recognizeStream = some i ∧
    (runAudio s chunks).isStreamEnded = false ∧
    (runAudio s chunks).writes = s.writes ++ chunks.map (fun cb => (i, cb.1)) := by
  induction chunks with
  | nil => intro s i h1 h2; simpa [runAudio] using ⟨h1, h2⟩
  | cons cb rest ih =>
      intro s i h1 h2
      obtain ⟨t1, t2, t3⟩ := onAudioChunk_streaming cb.1 cb.2 s i h1 h2
      rw [runAudio_cons]
      obtain ⟨r1, r2, r3⟩ := ih (onAudioChunk cb.1 cb.2 s) i t1 t2
      refine ⟨r1, r2, ?_⟩
      rw [r3, t3]
      simp

theorem onStop_no_stream (e : Bool) (s : Session) (h : s.recognizeStream = none) :
    onStop e s = s := by
  simp [onStop, h]

theorem onStop_ended (e : Bool) (s : Session) (h : s.isStreamEnded = true) :
    onStop e s = s := by
  cases hr : s.recognizeStream <;> simp [onStop, hr, h]

theorem onStop_closes (e : Bool) (s : Session) :
    (onStop e s).recognizeStream = none ∨ (onStop e s).isStreamEnded = true := by
  cases hr : s.recognizeStream with
  | none => left; simp [onStop, hr]
  | some i =>
      cases he : s.isStreamEnded with
      | true => right; simp [onStop, hr, he]
      | false =>
          cases e with
          | true => left; simp [onStop, hr, he]
          | false => right; simp [onStop, hr, he]

theorem onDisconnect_eq (e : Bool) (s : Session) : onDisconnect e s = onStop e s := by
  cases hr : s.recognizeStream <;> simp [onStop, onDisconnect, hr]

/-
Claim theorems.
-/

/-- C1 counterexample: running the trace onStart, onStart (both succeeding)
from a fresh connection leaves two streams opened, neither of which ever
received a close request or an upstream end event, so two open streams exist
for one Session — refuting that at most one open stream exists at a time and
that a stream is fully closed before a new one is opened. -/
theorem c1_counterexample :
    1 < openCount (runTrace cfgValid initialSession [SEvent.start true, SEvent.start true]) ∧
    (runTrace cfgValid initialSession [SEvent.start true, SEvent.start true]).openedStreams
      = [0, 1] ∧
    (runTrace cfgValid initialSession [SEvent.start true, SEvent.start true]).closeRequested
      = [] ∧
    (runTrace cfgValid initialSession [SEvent.start true, SEvent.start true]).endedStreams
      = [] := by
  decide

/-- C1 (amended): bytes are written to the stream only while ended is false
and a stream is present, and every write goes to the currently installed
stream; however a Session stream is not always closed before a new one is
opened — an onStart arriving while a stream is open and not ended overwrites
the reference without closing the old stream, leaving two open streams. -/
theorem c1_write_validity :
    (∀ (b : List Nat) (w : Bool) (s : Session),
      s.recognizeStream = none → onAudioChunk b w s = s) ∧
    (∀ (b : List Nat) (w : Bool) (s : Session),
      s.isStreamEnded = true → onAudioChunk b w s = s) ∧
    (∀ (b : List Nat) (w : Bool) (s : Session) (i : Nat),
      s.recognizeStream = some i → s.isStreamEnded = false →
      (onAudioChunk b w s).writes = s.writes ++ [(i, b)]) ∧
    openCount (runTrace cfgValid initialSession [SEvent.start true, SEvent.start true]) = 2 := by
  refine ⟨?_, ?_, ?_, by decide⟩
  · intro b w s h
    simp [onAudioChunk, h]
  · intro b w s h
    cases hr : s.recognizeStream <;> simp [onAudioChunk, hr, h]
  · intro b w s i h1 h2
    cases w <;> simp [onAudioChunk, h1, h2]

/-- Witness for c1_write_validity at concrete inputs. -/
theorem c1_write_validity_witness :
    onAudioChunk [1, 2] true initialSession = initialSession ∧
    (onAudioChunk [3] true (onStart cfgValid true initialSession)).writes
      = (onStart cfgValid true initialSession).writes ++ [(0, [3])] :=
  ⟨c1_write_validity.1 [1, 2] true initialSession rfl,
   c1_write_validity.2.2.1 [3] true (onStart cfgValid true initialSession) 0 rfl rfl⟩

/-- C2 counterexample: after the trace onStart(ok), upstream error "boom",
onStart(throws) — and likewise after onStart(ok), onStop with end() throwing,
onStart(throws) — a stream is still installed with ended = false, but it is
not live (it errored, resp. its close was already requested), refuting that
after onStart either a live stream is installed with ended = false or no
stream is installed. -/
theorem c2_counterexample :
    liveOrNone (runTrace cfgValid initialSession
      [SEvent.start true, SEvent.upstreamError 0 "boom", SEvent.start false]) = false ∧
    (runTrace cfgValid initialSession
      [SEvent.start true, SEvent.upstreamError 0 "boom", SEvent.start false]).recognizeStream
      = some 0 ∧
    (runTrace cfgValid initialSession
      [SEvent.start true, SEvent.upstreamError 0 "boom", SEvent.start false]).isStreamEnded
      = false ∧
    (0 : Nat) ∈ (runTrace cfgValid initialSession
      [SEvent.start true, SEvent.upstreamError 0 "boom", SEvent.start false]).erroredStreams ∧
    liveOrNone (runTrace cfgValid initialSession
      [SEvent.start true, SEvent.stop false, SEvent.start false]) = false := by
  decide

/-- C2 (amended): when the backend is unavailable, onStart emits exactly the
"not configured" error notification and changes nothing else; a successful
onStart installs a fresh live stream with ended = false; a failed onStart
(start attempt threw) emits "Failed to start stream", resets ended to false,
and leaves the previous stream reference in place — so a stream that is no
longer live may remain installed. -/
theorem c2_start_guarantee :
    (∀ (cfg : Cfg) (s : Session) (ok : Bool),
      (cfg.hasValidCredentials && cfg.speechClient) = false →
      onStart cfg ok s = { s with emitted :=
        s.emitted ++ [ClientEvent.error "Speech-to-Text service is not configured"] }) ∧
    (∀ (cfg : Cfg) (s : Session),
      cfg.hasValidCredentials = true → cfg.speechClient = true → Wf s →
      (onStart cfg true s).recognizeStream = some s.nextStreamId ∧
      (onStart cfg true s).isStreamEnded = false ∧
      liveB (onStart cfg true s) s.nextStreamId = true) ∧
    (∀ (cfg : Cfg) (s : Session),
      cfg.hasValidCredentials = true → cfg.speechClient = true →
      onStart cfg false s = { s with isStreamEnded := false, emitted := s.emitted ++ [ClientEvent.error "Failed to start stream"] }) := by
  refine ⟨?_, ?_, ?_⟩
  · intro cfg s ok hg
    simp [onStart, hg]
  · intro cfg s h1 h2 hw
    have hg : (cfg.hasValidCredentials && cfg.speechClient) = true := by simp [h1, h2]
    have hc : s.nextStreamId ∉ s.closeRequested := fun hmem =>
      Nat.lt_irrefl _ (hw.2.1 _ hmem)
    have he : s.nextStreamId ∉ s.endedStreams := fun hmem =>
      Nat.lt_irrefl _ (hw.2.2.1 _ hmem)
    have hr : s.nextStreamId ∉ s.erroredStreams := fun hmem =>
      Nat.lt_irrefl _ (hw.2.2.2 _ hmem)
    refine ⟨by simp [onStart, hg], by simp [onStart, hg], ?_⟩
    simp [onStart, hg, liveB, openB, hc, he, hr]
  · intro cfg s h1 h2
    have hg : (cfg.hasValidCredentials && cfg.speechClient) = true := by simp [h1, h2]
    simp [onStart, hg]

/-- Witness for c2_start_guarantee at concrete inputs. -/
theorem c2_start_guarantee_witness :
    onStart (mkCfg false) true initialSession = { initialSession with emitted :=
      initialSession.emitted
        ++ [ClientEvent.error "Speech-to-Text service is not configured"] } ∧
    liveB (onStart cfgValid true initialSession) initialSession.nextStreamId = true ∧
    onStart cfgValid false initialSession = { initialSession with isStreamEnded := false, emitted := initialSession.emitted ++ [ClientEvent.error "Failed to start stream"] } :=
  ⟨c2_start_guarantee.1 (mkCfg false) initialSession true rfl,
   (c2_start_guarantee.2.1 cfgValid initialSession rfl rfl
      ⟨by decide, by decide, by decide, by decide⟩).2.2,
   c2_start_guarantee.2.2 cfgValid initialSession rfl rfl⟩

/-- C3: after a successful onStart, every subsequent binaryData payload is
forwarded to the newly installed stream verbatim and in arrival order — the
write log of the active stream grows by exactly the chunk payloads, in order,
with no drops, duplication, or reordering, and the stream stays installed and
not ended throughout the chunk-only window. -/
theorem c3_ordered_forwarding (cfg : Cfg) (s : Session) (chunks : List (List Nat × Bool))
    (h1 : cfg.hasValidCredentials = true) (h2 : cfg.speechClient = true) :
    (runAudio (onStart cfg true s) chunks).writes
      = (onStart cfg true s).writes ++ chunks.map (fun cb => (s.nextStreamId, cb.1)) ∧
    (runAudio (onStart cfg true s) chunks).recognizeStream = some s.nextStreamId ∧
    (runAudio (onStart cfg true s) chunks).isStreamEnded = false := by
  have hg : (cfg.hasValidCredentials && cfg.speechClient) = true := by simp [h1, h2]
  have hr : (onStart cfg true s).recognizeStream = some s.nextStreamId := by
    simp [onStart, hg]
  have he : (onStart cfg true s).isStreamEnded = false := by
    simp [onStart, hg]
  obtain ⟨a, b, c⟩ := runAudio_streaming chunks (onStart cfg true s) s.nextStreamId hr he
  exact ⟨c, a, b⟩

/-- Witness for c3_ordered_forwarding at concrete inputs. -/
theorem c3_ordered_forwarding_witness :
    (runAudio (onStart cfgValid true initialSession) [([1, 2], true), ([3], true)]).writes
      = (onStart cfgValid true initialSession).writes
        ++ [([1, 2], true), ([3], true)].map
              (fun cb => (initialSession.nextStreamId, cb.1)) ∧
    (runAudio (onStart cfgValid true initialSession)
        [([1, 2], true), ([3], true)]).recognizeStream
      = some initialSession.nextStreamId ∧
    (runAudio (onStart cfgValid true initialSession)
        [([1, 2], true), ([3], true)]).isStreamEnded = false :=
  c3_ordered_forwarding cfgValid initialSession [([1, 2], true), ([3], true)] rfl rfl

/-- C4: onStop is idempotent — a second onStop right after an onStop is the
identity (so no duplicate close request and no error), onStop with no stream
installed is the identity, onDisconnect after a prior onStop is likewise the
identity on the Session, and onStop never emits an outbound event. -/
theorem c4_stop_idempotent :
    (∀ (s : Session) (e e2 : Bool), onStop e2 (onStop e s) = onStop e s) ∧
    (∀ (s : Session) (e : Bool), s.recognizeStream = none → onStop e s = s) ∧
    (∀ (s : Session) (e e2 : Bool), onDisconnect e2 (onStop e s) = onStop e s) ∧
    (∀ (s : Session) (e : Bool), (onStop e s).emitted = s.emitted) := by
  refine ⟨?_, fun s e h => onStop_no_stream e s h, ?_, ?_⟩
  · intro s e e2
    rcases onStop_closes e s with h | h
    · exact onStop_no_stream e2 _ h
    · exact onStop_ended e2 _ h
  · intro s e e2
    rw [onDisconnect_eq]
    rcases onStop_closes e s with h | h
    · exact onStop_no_stream e2 _ h
    · exact onStop_ended e2 _ h
  · intro s e
    cases hr : s.recognizeStream <;> cases he : s.isStreamEnded <;> cases e <;>
      simp [onStop, hr, he]

/-- Witness for c4_stop_idempotent at concrete inputs. -/
theorem c4_stop_idempotent_witness :
    onStop true (onStop true (onStart cfgValid true initialSession))
      = onStop true (onStart cfgValid true initialSession) ∧
    onStop true initialSession = initialSession ∧
    onDisconnect false (onStop true (onStart cfgValid true initialSession))
      = onStop true (onStart cfgValid true initialSession) :=
  ⟨c4_stop_idempotent.1 (onStart cfgValid true initialSession) true true,
   c4_stop_idempotent.2.1 initialSession true rfl,
   c4_stop_idempotent.2.2.1 (onStart cfgValid true initialSession) true false⟩

theorem dataEvents_isSome (d : RecognitionData) : (dataEvents d).isSome = true := by
  unfold dataEvents
  cases hr : d.results.head? with
  | none => rfl
  | some r => cases ha : r.alternatives.head? <;> simp [ha]

theorem get?_set_of_ne (t : Session) : ∀ (l : List Session) (c j : Nat), j ≠ c →
    (l.set c t).get? j = l.get? j := by
  intro l
  induction l with
  | nil => intro c j h; rfl
  | cons a l ih =>
      intro c j h
      cases c with
      | zero =>
          cases j with
          | zero => exact absurd rfl h
          | succ j => rfl
      | succ c =>
          cases j with
          | zero => rfl
          | succ j => exact ih c j (fun hh => h (congrArg Nat.succ hh))

/-- C5: the upstream error handler emits an outbound error event exactly when
the message differs from the benign race string "write after end": on that
exact message nothing is emitted, on any other message the
"Speech recognition error: <message>" notification is emitted. -/
theorem c5_error_filter (s : Session) (i : Nat) (msg : String) :
    (msg = "write after end" → (onUpstreamError i msg s).emitted = s.emitted) ∧
    (msg ≠ "write after end" → (onUpstreamError i msg s).emitted
      = s.emitted ++ [ClientEvent.error ("Speech recognition error: " ++ msg)]) := by
  constructor
  · intro h
    simp [onUpstreamError, h]
  · intro h
    simp [onUpstreamError, h]

/-- Witness for c5_error_filter at concrete inputs. -/
theorem c5_error_filter_witness :
    (onUpstreamError 0 "write after end" initialSession).emitted
      = initialSession.emitted ∧
    (onUpstreamError 0 "boom" initialSession).emitted
      = initialSession.emitted
        ++ [ClientEvent.error ("Speech recognition error: " ++ "boom")] :=
  ⟨(c5_error_filter initialSession 0 "write after end").1 rfl,
   (c5_error_filter initialSession 0 "boom").2 (by decide)⟩

/-- C6: with invalid credentials at startup — validateGoogleCredentials is
false when the environment variable is unset or its JSON parse fails — every
onStart call emits exactly the "not configured" error event and performs no
further action: no upstream stream is opened and every other Session field is
unchanged. -/
theorem c6_not_configured :
    (∀ parseOk : String → Bool, validateGoogleCredentials none parseOk = false) ∧
    (∀ (credentials : String) (parseOk : String → Bool), parseOk credentials = false →
      validateGoogleCredentials (some credentials) parseOk = false) ∧
    (∀ (cfg : Cfg) (s : Session) (ok : Bool), cfg.hasValidCredentials = false →
      onStart cfg ok s = { s with emitted := s.emitted ++ [ClientEvent.error "Speech-to-Text service is not configured"] }) := by
  refine ⟨fun p => rfl, fun c p h => h, ?_⟩
  intro cfg s ok h
  simp [onStart, h]

/-- Witness for c6_not_configured at concrete inputs. -/
theorem c6_not_configured_witness :
    validateGoogleCredentials (some "not json") (fun t => false) = false ∧
    onStart (mkCfg false) true initialSession = { initialSession with emitted := initialSession.emitted ++ [ClientEvent.error "Speech-to-Text service is not configured"] } :=
  ⟨c6_not_configured.2.1 "not json" (fun t => false) rfl,
   c6_not_configured.2.2 (mkCfg false) initialSession true rfl⟩

/-- C7: an unprompted upstream end event on a live stream sets ended = true
and clears the stream reference, and every subsequent sequence of binaryData
chunks is then silently dropped: the state does not change at all, so no
write is recorded and no event (in particular no write error) is emitted. -/
theorem c7_upstream_end_drops (s : Session) (i : Nat)
    (h1 : s.recognizeStream = some i) (h2 : s.isStreamEnded = false) :
    (onUpstreamEnd i s).isStreamEnded = true ∧
    (onUpstreamEnd i s).recognizeStream = none ∧
    (∀ chunks : List (List Nat × Bool),
      runAudio (onUpstreamEnd i s) chunks = onUpstreamEnd i s) := by
  refine ⟨rfl, rfl, ?_⟩
  intro chunks
  exact runAudio_no_stream chunks _ rfl

/-- Witness for c7_upstream_end_drops at concrete inputs. -/
theorem c7_upstream_end_drops_witness :
    runAudio (onUpstreamEnd 0 (onStart cfgValid true initialSession)) [([9], true)]
      = onUpstreamEnd 0 (onStart cfgValid true initialSession) :=
  (c7_upstream_end_drops (onStart cfgValid true initialSession) 0 rfl rfl).2.2 [([9], true)]

/-- C8: binaryData chunks arriving before any onStart are dropped outright —
starting from the fresh Session, any sequence of chunks leaves the state
exactly equal to the fresh Session: no bytes are forwarded, nothing is
buffered or queued, and every later operation behaves as if the chunks never
arrived. -/
theorem c8_pre_start_drops (chunks : List (List Nat × Bool)) :
    runAudio initialSession chunks = initialSession ∧
    (runAudio initialSession chunks).writes = [] := by
  have h := runAudio_no_stream chunks initialSession rfl
  refine ⟨h, ?_⟩
  rw [h]
  rfl

/-- C9: failure containment — dispatching any event through the handler
boundary never lets an exception escape (handleE always returns some; in
particular the upstream data handler returns cleanly on a payload whose first
result has an empty alternatives list), and an event delivered to one
connection leaves the Session of every other connection untouched. -/
theorem c9_containment :
    (∀ (cfg : Cfg) (s : Session) (ev : SEvent), (handleE cfg s ev).isSome = true) ∧
    dataEvents { results := [{ alternatives := [] }] } = some [] ∧
    (∀ (cfg : Cfg) (w : List Session) (c : Nat) (ev : SEvent) (j : Nat),
      j ≠ c → (stepWorld cfg w c ev).get? j = w.get? j) := by
  refine ⟨?_, rfl, ?_⟩
  · intro cfg s ev
    cases ev with
    | upstreamData d =>
        obtain ⟨l, hl⟩ := Option.isSome_iff_exists.mp (dataEvents_isSome d)
        simp [handleE, onUpstreamData, hl]
    | start ok => rfl
    | audio b w => rfl
    | stop e => rfl
    | disconnect e => rfl
    | upstreamError i m => rfl
    | upstreamEnd i => rfl
  · intro cfg w c ev j hne
    unfold stepWorld
    cases hg : w.get? c with
    | none => rfl
    | some s0 => exact get?_set_of_ne _ w c j hne

/-- Witness for c9_containment at concrete inputs. -/
theorem c9_containment_witness :
    (stepWorld cfgValid [initialSession, initialSession] 0 (SEvent.start true)).get? 1
      = [initialSession, initialSession].get? 1 :=
  c9_containment.2.2 cfgValid [initialSession, initialSession] 0 (SEvent.start true) 1
    (by decide)

/-- C10: onStop and onDisconnect never emit an outbound event — in every
Session state, whether the close request succeeds or itself throws, the
emitted log is unchanged (close failures are only logged). -/
theorem c10_stop_silent (s : Session) (e : Bool) :
    (onStop e s).emitted = s.emitted ∧ (onDisconnect e s).emitted = s.emitted := by
  rw [onDisconnect_eq]
  constructor <;>
    (cases hr : s.recognizeStream <;> cases he : s.isStreamEnded <;> cases e <;>
      simp [onStop, hr, he])
